import Mathlib

/-!
Shallow embedding of the cross-schema reference validator of
`system-tools-contracts` (src/schemas/mod.js, the cross-validator
module) and proofs of the referential-integrity properties claimed by
its specification.

Modelling conventions:
* JS `Map<string, T>` becomes a function `String → Option T`;
  `Map.set` overwrites, `Map.has` is `Option.isSome`, `Map.clear`
  returns the empty map.  Nothing in the source iterates a map, so this
  is a faithful abstraction.
* Loosely typed records (`Record<string, unknown>`) become fixed-shape
  structures whose optional fields are `Option`s; a JS truthiness test
  on a string-valued field (`if (x && ...)`) is `x ≠ ""` on the carried
  string, with `none` for `undefined`/`null`.
* The error and warning literals pushed by the source are given named
  constructors; the validators push exactly those.
* The mutable registry threads through functions explicitly; the batch
  validator returns the result together with the mutated registry.
-/

namespace SystemToolsContracts

/-- `type` field of `CrossReferenceError` (src/schemas/mod.js). -/
inductive ErrType where
  | missing_reference
  | invalid_reference
  | circular_reference
deriving DecidableEq, Repr

/-- `CrossReferenceError` interface (src/schemas/mod.js). -/
structure CrossReferenceError where
  type : ErrType
  source_schema : String
  source_id : String
  target_schema : String
  target_id : String
  field : String
  message : String
deriving DecidableEq, Repr

/-- `type` field of `CrossReferenceWarning` (src/schemas/mod.js). -/
inductive WarnType where
  | unverified_reference
  | stale_reference
deriving DecidableEq, Repr

/-- `CrossReferenceWarning` interface (src/schemas/mod.js). -/
structure CrossReferenceWarning where
  type : WarnType
  message : String
deriving DecidableEq, Repr

/-- `CrossValidationResult` interface (src/schemas/mod.js). -/
structure CrossValidationResult where
  valid : Bool
  errors : List CrossReferenceError
  warnings : List CrossReferenceWarning
deriving DecidableEq, Repr

/-- `EnvelopeRef` interface (src/schemas/mod.js). -/
structure EnvelopeRef where
  artifact_ids : List String
  parent_envelope_id : Option String
deriving DecidableEq, Repr

/-- `PlanRef` interface (src/schemas/mod.js). -/
structure PlanRef where
  envelope_id : Option String
  receipt_id : Option String
deriving DecidableEq, Repr

/-- `ReceiptRef` interface (src/schemas/mod.js). -/
structure ReceiptRef where
  plan_id : Option String
  envelope_id : Option String
deriving DecidableEq, Repr

/-- `ArtifactRef` interface (src/schemas/mod.js). -/
structure ArtifactRef where
  envelope_id : String
deriving DecidableEq, Repr

/-- A JS `Map<string, α>`, modelled by its lookup function. -/
def StrMap (α : Type) : Type := String → Option α

/-- `new Map()`. -/
def StrMap.empty {α : Type} : StrMap α := fun _ => none

/-- `Map.prototype.set` (overwrites an existing key). -/
def StrMap.set {α : Type} (m : StrMap α) (k : String) (v : α) : StrMap α :=
  fun x => if x = k then some v else m x

/-- `Map.prototype.has`. -/
def StrMap.hasKey {α : Type} (m : StrMap α) (k : String) : Bool :=
  (m k).isSome

/-- `EntityRegistry` class state: the four private maps (src/schemas/mod.js). -/
structure EntityRegistry where
  envelopes : StrMap EnvelopeRef
  plans : StrMap PlanRef
  receipts : StrMap ReceiptRef
  artifacts : StrMap ArtifactRef

/-- The initial (freshly constructed) registry: four empty maps. -/
def EntityRegistry.empty : EntityRegistry :=
  { envelopes := StrMap.empty
    plans := StrMap.empty
    receipts := StrMap.empty
    artifacts := StrMap.empty }

/-- `EntityRegistry.registerEnvelope`: sets the envelope entry and also
registers every artifact of the envelope, mapped to this envelope's id. -/
def EntityRegistry.registerEnvelope (r : EntityRegistry) (id : String)
    (envelope : EnvelopeRef) : EntityRegistry :=
  { r with
    envelopes := r.envelopes.set id envelope
    artifacts := envelope.artifact_ids.foldl
      (fun m artifact => m.set artifact { envelope_id := id }) r.artifacts }

/-- `EntityRegistry.registerPlan`. -/
def EntityRegistry.registerPlan (r : EntityRegistry) (id : String)
    (plan : PlanRef) : EntityRegistry :=
  { r with plans := r.plans.set id plan }

/-- `EntityRegistry.registerReceipt`. -/
def EntityRegistry.registerReceipt (r : EntityRegistry) (id : String)
    (receipt : ReceiptRef) : EntityRegistry :=
  { r with receipts := r.receipts.set id receipt }

/-- `EntityRegistry.hasEnvelope`. -/
def EntityRegistry.hasEnvelope (r : EntityRegistry) (id : String) : Bool :=
  r.envelopes.hasKey id

/-- `EntityRegistry.hasPlan`. -/
def EntityRegistry.hasPlan (r : EntityRegistry) (id : String) : Bool :=
  r.plans.hasKey id

/-- `EntityRegistry.hasReceipt`. -/
def EntityRegistry.hasReceipt (r : EntityRegistry) (id : String) : Bool :=
  r.receipts.hasKey id

/-- `EntityRegistry.hasArtifact`. -/
def EntityRegistry.hasArtifact (r : EntityRegistry) (id : String) : Bool :=
  r.artifacts.hasKey id

/-- `EntityRegistry.getEnvelope`. -/
def EntityRegistry.getEnvelope (r : EntityRegistry) (id : String) :
    Option EnvelopeRef :=
  r.envelopes id

/-- `EntityRegistry.clear`: empties all four maps. -/
def EntityRegistry.clear (_ : EntityRegistry) : EntityRegistry :=
  { envelopes := StrMap.empty
    plans := StrMap.empty
    receipts := StrMap.empty
    artifacts := StrMap.empty }

/-- An entry of an envelope document's `artifacts` array (only the
`artifact_id` field is read by the validator). -/
structure ArtifactDoc where
  artifact_id : String
deriving DecidableEq, Repr

/-- An entry of an envelope document's `findings` array. -/
structure FindingDoc where
  finding_id : String
  evidence_refs : Option (List String)
deriving DecidableEq, Repr

/-- The `provenance` object of an envelope document. -/
structure ProvenanceDoc where
  parent_envelope_id : Option String
deriving DecidableEq, Repr

/-- An evidence-envelope document, restricted to the fields the
reference validator reads. -/
structure EnvelopeDoc where
  envelope_id : String
  artifacts : Option (List ArtifactDoc)
  findings : Option (List FindingDoc)
  provenance : Option ProvenanceDoc
deriving DecidableEq, Repr

/-- A procedure-plan document, restricted to the fields read. -/
structure PlanDoc where
  plan_id : String
  source_envelope_id : Option String
  receipt_id : Option String
deriving DecidableEq, Repr

/-- A receipt document, restricted to the fields read.  Note the source
registers `receipt.envelope_id` but validates `receipt.source_envelope_id`;
both fields are kept. -/
structure ReceiptDoc where
  receipt_id : String
  plan_id : Option String
  envelope_id : Option String
  source_envelope_id : Option String
deriving DecidableEq, Repr

/-- The grouped `documents` argument of `validateCrossReferences`
(each list optional, absent meaning empty). -/
structure Documents where
  envelopes : Option (List EnvelopeDoc)
  plans : Option (List PlanDoc)
  receipts : Option (List ReceiptDoc)
deriving DecidableEq, Repr

/-- The parent-envelope id an envelope document declares:
`envelope.provenance?.parent_envelope_id`. -/
def EnvelopeDoc.parentId (envelope : EnvelopeDoc) : Option String :=
  envelope.provenance.bind (fun p => p.parent_envelope_id)

/-- The error pushed when a finding's evidence reference does not
resolve to one of its envelope's own artifacts. -/
def findingArtifactError (envelopeId findingId ref : String) :
    CrossReferenceError :=
  { type := ErrType.missing_reference
    source_schema := "evidence-envelope"
    source_id := envelopeId
    target_schema := "artifact"
    target_id := ref
    field := "findings[" ++ findingId ++ "].evidence_refs"
    message := "Finding \"" ++ findingId ++
      "\" references non-existent artifact \"" ++ ref ++ "\"" }

/-- The warning pushed by the internal validator when an envelope
declares a parent it cannot resolve without a registry. -/
def parentUnverifiedWarning (parentId : String) : CrossReferenceWarning :=
  { type := WarnType.unverified_reference
    message := "Parent envelope \"" ++ parentId ++
      "\" cannot be verified without registry" }

/-- The error pushed by the batch validator when an envelope's parent is
not a registered envelope. -/
def missingParentError (id parentId : String) : CrossReferenceError :=
  { type := ErrType.missing_reference
    source_schema := "evidence-envelope"
    source_id := id
    target_schema := "evidence-envelope"
    target_id := parentId
    field := "provenance.parent_envelope_id"
    message := "Envelope \"" ++ id ++
      "\" references non-existent parent envelope \"" ++ parentId ++ "\"" }

/-- The error pushed by the batch validator when an envelope is its own
parent. -/
def circularParentError (id parentId : String) : CrossReferenceError :=
  { type := ErrType.circular_reference
    source_schema := "evidence-envelope"
    source_id := id
    target_schema := "evidence-envelope"
    target_id := parentId
    field := "provenance.parent_envelope_id"
    message := "Envelope \"" ++ id ++ "\" references itself as parent" }

/-- The error pushed by the batch validator when a plan's source
envelope is not registered. -/
def planEnvelopeError (id envelopeId : String) : CrossReferenceError :=
  { type := ErrType.missing_reference
    source_schema := "procedure-plan"
    source_id := id
    target_schema := "evidence-envelope"
    target_id := envelopeId
    field := "source_envelope_id"
    message := "Plan \"" ++ id ++
      "\" references non-existent envelope \"" ++ envelopeId ++ "\"" }

/-- The error pushed by the batch validator when a receipt's plan is not
registered. -/
def receiptPlanError (id planId : String) : CrossReferenceError :=
  { type := ErrType.missing_reference
    source_schema := "receipt"
    source_id := id
    target_schema := "procedure-plan"
    target_id := planId
    field := "plan_id"
    message := "Receipt \"" ++ id ++
      "\" references non-existent plan \"" ++ planId ++ "\"" }

/-- The error pushed by the batch validator when a receipt's source
envelope is not registered. -/
def receiptEnvelopeError (id envelopeId : String) : CrossReferenceError :=
  { type := ErrType.missing_reference
    source_schema := "receipt"
    source_id := id
    target_schema := "evidence-envelope"
    target_id := envelopeId
    field := "source_envelope_id"
    message := "Receipt \"" ++ id ++
      "\" references non-existent envelope \"" ++ envelopeId ++ "\"" }

/-- The warning pushed by the incremental validator when an envelope's
parent is not in the registry. -/
def parentNotInRegistryWarning (parentId : String) : CrossReferenceWarning :=
  { type := WarnType.unverified_reference
    message := "Parent envelope \"" ++ parentId ++ "\" not in registry" }

/-- The error pushed by the incremental validator when a plan's source
envelope is not in the registry (message differs from the batch one). -/
def docPlanEnvelopeError (id envelopeId : String) : CrossReferenceError :=
  { type := ErrType.missing_reference
    source_schema := "procedure-plan"
    source_id := id
    target_schema := "evidence-envelope"
    target_id := envelopeId
    field := "source_envelope_id"
    message := "Plan references non-existent envelope \"" ++
      envelopeId ++ "\"" }

/-- The error pushed by the incremental validator when a receipt's plan
is not in the registry (message differs from the batch one). -/
def docReceiptPlanError (id planId : String) : CrossReferenceError :=
  { type := ErrType.missing_reference
    source_schema := "receipt"
    source_id := id
    target_schema := "procedure-plan"
    target_id := planId
    field := "plan_id"
    message := "Receipt references non-existent plan \"" ++ planId ++ "\"" }

/-- `validateEnvelopeInternalRefs` (src/schemas/mod.js): checks each
finding's `evidence_refs` against the envelope's own artifact-id set and
warns about an unverifiable parent reference. -/
def validateEnvelopeInternalRefs (envelope : EnvelopeDoc) :
    CrossValidationResult :=
  let artifacts := envelope.artifacts.getD []
  let findings := envelope.findings.getD []
  let artifactIds :=
    (artifacts.map (fun a => a.artifact_id)).filter (fun s => s ≠ "")
  let errors := findings.flatMap (fun finding =>
    let evidenceRefs := finding.evidence_refs.getD []
    evidenceRefs.filterMap (fun ref =>
      if artifactIds.contains ref then none
      else some (findingArtifactError envelope.envelope_id
        finding.finding_id ref)))
  let warnings :=
    match envelope.parentId with
    | some pid => if pid ≠ "" then [parentUnverifiedWarning pid] else []
    | none => []
  { valid := errors.isEmpty, errors := errors, warnings := warnings }

/-- Loop body of the envelope-registration loop of
`validateCrossReferences`. -/
def registerEnvelopeDoc (r : EntityRegistry) (envelope : EnvelopeDoc) :
    EntityRegistry :=
  r.registerEnvelope envelope.envelope_id
    { artifact_ids := (envelope.artifacts.getD []).map (fun a => a.artifact_id)
      parent_envelope_id := envelope.parentId }

/-- Loop body of the plan-registration loop of
`validateCrossReferences`. -/
def registerPlanDoc (r : EntityRegistry) (plan : PlanDoc) : EntityRegistry :=
  r.registerPlan plan.plan_id
    { envelope_id := plan.source_envelope_id
      receipt_id := plan.receipt_id }

/-- Loop body of the receipt-registration loop of
`validateCrossReferences`. -/
def registerReceiptDoc (r : EntityRegistry) (receipt : ReceiptDoc) :
    EntityRegistry :=
  r.registerReceipt receipt.receipt_id
    { plan_id := receipt.plan_id
      envelope_id := receipt.envelope_id }

/-- Registration phase of `validateCrossReferences`: register all
envelopes, then all plans, then all receipts. -/
def registerDocuments (registry : EntityRegistry) (documents : Documents) :
    EntityRegistry :=
  ((documents.receipts.getD []).foldl registerReceiptDoc
    ((documents.plans.getD []).foldl registerPlanDoc
      ((documents.envelopes.getD []).foldl registerEnvelopeDoc registry)))

/-- Per-envelope cross-reference checks of `validateCrossReferences`:
the missing-parent check followed by the circular-reference check. -/
def envelopeRefErrors (registry : EntityRegistry) (envelope : EnvelopeDoc) :
    List CrossReferenceError :=
  let id := envelope.envelope_id
  let missing :=
    match envelope.parentId with
    | some p =>
        if p ≠ "" && !(registry.hasEnvelope p) then
          [missingParentError id p]
        else []
    | none => []
  let circular :=
    match envelope.parentId with
    | some p => if p = id then [circularParentError id p] else []
    | none => []
  missing ++ circular

/-- Per-plan cross-reference check of `validateCrossReferences`. -/
def planRefErrors (registry : EntityRegistry) (plan : PlanDoc) :
    List CrossReferenceError :=
  match plan.source_envelope_id with
  | some envelopeId =>
      if envelopeId ≠ "" && !(registry.hasEnvelope envelopeId) then
        [planEnvelopeError plan.plan_id envelopeId]
      else []
  | none => []

/-- Per-receipt cross-reference checks of `validateCrossReferences`:
the plan check followed by the envelope check (which reads the
`source_envelope_id` field of the receipt). -/
def receiptRefErrors (registry : EntityRegistry) (receipt : ReceiptDoc) :
    List CrossReferenceError :=
  let planErrors :=
    match receipt.plan_id with
    | some planId =>
        if planId ≠ "" && !(registry.hasPlan planId) then
          [receiptPlanError receipt.receipt_id planId]
        else []
    | none => []
  let envelopeErrors :=
    match receipt.source_envelope_id with
    | some envelopeId =>
        if envelopeId ≠ "" && !(registry.hasEnvelope envelopeId) then
          [receiptEnvelopeError receipt.receipt_id envelopeId]
        else []
    | none => []
  planErrors ++ envelopeErrors

/-- `validateCrossReferences` (src/schemas/mod.js): registers every
document, then validates every cross-reference.  Returns the result and
the registry as mutated by the registration phase. -/
def validateCrossReferences (registry : EntityRegistry)
    (documents : Documents) : CrossValidationResult × EntityRegistry :=
  let registry := registerDocuments registry documents
  let errors :=
    (documents.envelopes.getD []).flatMap (fun envelope =>
        envelopeRefErrors registry envelope ++
        (validateEnvelopeInternalRefs envelope).errors) ++
    (documents.plans.getD []).flatMap (planRefErrors registry) ++
    (documents.receipts.getD []).flatMap (receiptRefErrors registry)
  let warnings :=
    (documents.envelopes.getD []).flatMap (fun envelope =>
      (validateEnvelopeInternalRefs envelope).warnings)
  ({ valid := errors.isEmpty, errors := errors, warnings := warnings },
   registry)

/-- The `schemaType`-tagged document given to `validateDocumentRefs`
(a closed variant replacing the string tag plus untyped record). -/
inductive TypedDocument where
  | envelope (document : EnvelopeDoc)
  | plan (document : PlanDoc)
  | receipt (document : ReceiptDoc)
deriving DecidableEq, Repr

/-- `validateDocumentRefs` (src/schemas/mod.js): quick validation of a
single document against an already-populated registry. -/
def validateDocumentRefs (registry : EntityRegistry)
    (document : TypedDocument) : CrossValidationResult :=
  match document with
  | TypedDocument.envelope d =>
      let result := validateEnvelopeInternalRefs d
      let registryWarnings :=
        match d.parentId with
        | some parentId =>
            if parentId ≠ "" && !(registry.hasEnvelope parentId) then
              [parentNotInRegistryWarning parentId]
            else []
        | none => []
      { valid := result.errors.isEmpty
        errors := result.errors
        warnings := result.warnings ++ registryWarnings }
  | TypedDocument.plan d =>
      let errors :=
        match d.source_envelope_id with
        | some envelopeId =>
            if envelopeId ≠ "" && !(registry.hasEnvelope envelopeId) then
              [docPlanEnvelopeError d.plan_id envelopeId]
            else []
        | none => []
      { valid := errors.isEmpty, errors := errors, warnings := [] }
  | TypedDocument.receipt d =>
      let errors :=
        match d.plan_id with
        | some planId =>
            if planId ≠ "" && !(registry.hasPlan planId) then
              [docReceiptPlanError d.receipt_id planId]
            else []
        | none => []
      { valid := errors.isEmpty, errors := errors, warnings := [] }

/-! ### Helper lemmas about the registry -/

theorem artifactsFold_eval (ids : List String) (id : String)
    (m : StrMap ArtifactRef) (k : String) :
    (ids.foldl (fun m artifact => m.set artifact { envelope_id := id }) m) k =
      if ids.contains k then some { envelope_id := id } else m k := by
  induction ids generalizing m with
  | nil => simp
  | cons a as ih =>
      simp only [List.foldl_cons, ih, List.contains_cons]
      by_cases h : k = a
      · subst h
        simp [StrMap.set]
      · have hba : (k == a) = false := by simp [h]
        simp [StrMap.set, h, hba]

theorem hasArtifact_registerEnvelope (r : EntityRegistry) (id : String)
    (envelope : EnvelopeRef) (k : String) :
    (r.registerEnvelope id envelope).hasArtifact k =
      (envelope.artifact_ids.contains k || r.hasArtifact k) := by
  unfold EntityRegistry.registerEnvelope EntityRegistry.hasArtifact
    StrMap.hasKey
  simp only
  rw [artifactsFold_eval]
  by_cases hm : k ∈ envelope.artifact_ids
  · simp [hm]
  · simp [hm]

theorem getEnvelope_registerEnvelope_self (r : EntityRegistry) (id : String)
    (envelope : EnvelopeRef) :
    (r.registerEnvelope id envelope).getEnvelope id = some envelope := by
  simp [EntityRegistry.registerEnvelope, EntityRegistry.getEnvelope,
    StrMap.set]

theorem hasEnvelope_registerEnvelope (r : EntityRegistry) (id : String)
    (envelope : EnvelopeRef) (k : String) :
    (r.registerEnvelope id envelope).hasEnvelope k =
      (k == id || r.hasEnvelope k) := by
  unfold EntityRegistry.registerEnvelope EntityRegistry.hasEnvelope
    StrMap.hasKey StrMap.set
  simp only
  by_cases h : k = id <;> simp [h]

theorem envelopes_plansFold (ps : List PlanDoc) (r : EntityRegistry) :
    (ps.foldl registerPlanDoc r).envelopes = r.envelopes := by
  induction ps generalizing r with
  | nil => rfl
  | cons p ps ih => rw [List.foldl_cons, ih]; rfl

theorem envelopes_receiptsFold (rs : List ReceiptDoc) (r : EntityRegistry) :
    (rs.foldl registerReceiptDoc r).envelopes = r.envelopes := by
  induction rs generalizing r with
  | nil => rfl
  | cons rc rs ih => rw [List.foldl_cons, ih]; rfl

theorem hasEnvelope_envelopesFold (es : List EnvelopeDoc)
    (r : EntityRegistry) (k : String) :
    ((es.foldl registerEnvelopeDoc r).hasEnvelope k) =
      (es.any (fun e => k == e.envelope_id) || r.hasEnvelope k) := by
  induction es generalizing r with
  | nil => simp
  | cons e es ih =>
      rw [List.foldl_cons, ih]
      unfold registerEnvelopeDoc
      rw [hasEnvelope_registerEnvelope]
      simp [Bool.or_comm, Bool.or_assoc, Bool.or_left_comm]

theorem hasEnvelope_registerDocuments (r : EntityRegistry)
    (docs : Documents) (k : String) :
    (registerDocuments r docs).hasEnvelope k =
      ((docs.envelopes.getD []).any (fun e => k == e.envelope_id) ||
        r.hasEnvelope k) := by
  unfold registerDocuments
  unfold EntityRegistry.hasEnvelope StrMap.hasKey
  rw [envelopes_receiptsFold, envelopes_plansFold]
  exact hasEnvelope_envelopesFold (docs.envelopes.getD []) r k

theorem hasEnvelope_registerDocuments_of_mem (r : EntityRegistry)
    (docs : Documents) (e : EnvelopeDoc)
    (he : e ∈ docs.envelopes.getD []) :
    (registerDocuments r docs).hasEnvelope e.envelope_id = true := by
  rw [hasEnvelope_registerDocuments]
  have : (docs.envelopes.getD []).any
      (fun x => e.envelope_id == x.envelope_id) = true :=
    List.any_eq_true.mpr ⟨e, he, by simp⟩
  rw [this]
  rfl

/-! ### Helper lemmas about error shapes -/

theorem findingField_ne_parentField (findingId : String) :
    ("findings[" ++ findingId ++ "].evidence_refs") ≠
      "provenance.parent_envelope_id" := by
  intro h
  have h2 := congrArg String.data h
  simp [String.data_append] at h2

/-! ### Equation lemmas for the per-document checks -/

theorem envelopeRefErrors_eq_none (registry : EntityRegistry)
    (e : EnvelopeDoc) (hp : e.parentId = none) :
    envelopeRefErrors registry e = [] := by
  unfold envelopeRefErrors
  rw [hp]
  rfl

theorem envelopeRefErrors_eq_some (registry : EntityRegistry)
    (e : EnvelopeDoc) (p : String) (hp : e.parentId = some p) :
    envelopeRefErrors registry e =
      (if p ≠ "" && !(registry.hasEnvelope p) then
        [missingParentError e.envelope_id p] else []) ++
      (if p = e.envelope_id then
        [circularParentError e.envelope_id p] else []) := by
  unfold envelopeRefErrors
  rw [hp]

theorem planRefErrors_eq_none (registry : EntityRegistry) (p : PlanDoc)
    (hp : p.source_envelope_id = none) :
    planRefErrors registry p = [] := by
  unfold planRefErrors
  rw [hp]

theorem planRefErrors_eq_some (registry : EntityRegistry) (p : PlanDoc)
    (envelopeId : String) (hp : p.source_envelope_id = some envelopeId) :
    planRefErrors registry p =
      if envelopeId ≠ "" && !(registry.hasEnvelope envelopeId) then
        [planEnvelopeError p.plan_id envelopeId] else [] := by
  unfold planRefErrors
  rw [hp]

theorem receiptRefErrors_eq_nn (registry : EntityRegistry)
    (rc : ReceiptDoc) (hp : rc.plan_id = none)
    (he : rc.source_envelope_id = none) :
    receiptRefErrors registry rc = [] := by
  unfold receiptRefErrors
  rw [hp, he]
  rfl

theorem receiptRefErrors_eq_sn (registry : EntityRegistry)
    (rc : ReceiptDoc) (planId : String) (hp : rc.plan_id = some planId)
    (he : rc.source_envelope_id = none) :
    receiptRefErrors registry rc =
      if planId ≠ "" && !(registry.hasPlan planId) then
        [receiptPlanError rc.receipt_id planId] else [] := by
  unfold receiptRefErrors
  rw [hp, he]
  simp

theorem receiptRefErrors_eq_ns (registry : EntityRegistry)
    (rc : ReceiptDoc) (envelopeId : String) (hp : rc.plan_id = none)
    (he : rc.source_envelope_id = some envelopeId) :
    receiptRefErrors registry rc =
      if envelopeId ≠ "" && !(registry.hasEnvelope envelopeId) then
        [receiptEnvelopeError rc.receipt_id envelopeId] else [] := by
  unfold receiptRefErrors
  rw [hp, he]
  simp

theorem receiptRefErrors_eq_ss (registry : EntityRegistry)
    (rc : ReceiptDoc) (planId envelopeId : String)
    (hp : rc.plan_id = some planId)
    (he : rc.source_envelope_id = some envelopeId) :
    receiptRefErrors registry rc =
      (if planId ≠ "" && !(registry.hasPlan planId) then
        [receiptPlanError rc.receipt_id planId] else []) ++
      (if envelopeId ≠ "" && !(registry.hasEnvelope envelopeId) then
        [receiptEnvelopeError rc.receipt_id envelopeId] else []) := by
  unfold receiptRefErrors
  rw [hp, he]

theorem internal_warnings_eq_none (e : EnvelopeDoc)
    (hp : e.parentId = none) :
    (validateEnvelopeInternalRefs e).warnings = [] := by
  unfold validateEnvelopeInternalRefs
  rw [hp]

theorem internal_warnings_eq_some (e : EnvelopeDoc) (p : String)
    (hp : e.parentId = some p) :
    (validateEnvelopeInternalRefs e).warnings =
      if p ≠ "" then [parentUnverifiedWarning p] else [] := by
  unfold validateEnvelopeInternalRefs
  rw [hp]

theorem internal_errors_eq (e : EnvelopeDoc) :
    (validateEnvelopeInternalRefs e).errors =
      (e.findings.getD []).flatMap (fun finding =>
        (finding.evidence_refs.getD []).filterMap (fun ref =>
          if (((e.artifacts.getD []).map (fun a => a.artifact_id)).filter
              (fun s => s ≠ "")).contains ref then none
          else some (findingArtifactError e.envelope_id
            finding.finding_id ref))) := rfl

theorem batch_errors_eq (r : EntityRegistry) (docs : Documents) :
    ((validateCrossReferences r docs).1).errors =
      (docs.envelopes.getD []).flatMap (fun envelope =>
        envelopeRefErrors (registerDocuments r docs) envelope ++
        (validateEnvelopeInternalRefs envelope).errors) ++
      (docs.plans.getD []).flatMap
        (planRefErrors (registerDocuments r docs)) ++
      (docs.receipts.getD []).flatMap
        (receiptRefErrors (registerDocuments r docs)) := rfl

theorem batch_warnings_eq (r : EntityRegistry) (docs : Documents) :
    ((validateCrossReferences r docs).1).warnings =
      (docs.envelopes.getD []).flatMap (fun envelope =>
        (validateEnvelopeInternalRefs envelope).warnings) := rfl

/-! ### Membership inversion lemmas -/

theorem mem_internalErrors (e : EnvelopeDoc) (err : CrossReferenceError)
    (h : err ∈ (validateEnvelopeInternalRefs e).errors) :
    ∃ findingId ref,
      err = findingArtifactError e.envelope_id findingId ref := by
  rw [internal_errors_eq] at h
  rw [List.mem_flatMap] at h
  obtain ⟨f, _, hmem⟩ := h
  rw [List.mem_filterMap] at hmem
  obtain ⟨ref, _, hsome⟩ := hmem
  split at hsome
  · exact absurd hsome (by simp)
  · exact ⟨f.finding_id, ref, (Option.some_inj.mp hsome).symm⟩

theorem mem_envelopeRefErrors (registry : EntityRegistry)
    (e : EnvelopeDoc) (err : CrossReferenceError)
    (h : err ∈ envelopeRefErrors registry e) :
    ∃ p, e.parentId = some p ∧
      ((err = missingParentError e.envelope_id p ∧
          registry.hasEnvelope p = false) ∨
        (err = circularParentError e.envelope_id p ∧ p = e.envelope_id)) := by
  cases hp : e.parentId with
  | none =>
      rw [envelopeRefErrors_eq_none registry e hp] at h
      exact absurd h (by simp)
  | some p =>
      rw [envelopeRefErrors_eq_some registry e p hp] at h
      rw [List.mem_append] at h
      rcases h with h | h
      · split at h
        · rename_i hcond
          rw [List.mem_singleton] at h
          refine ⟨p, rfl, Or.inl ⟨h, ?_⟩⟩
          have hc := (Bool.and_eq_true _ _).mp hcond
          simpa using hc.2
        · exact absurd h (by simp)
      · split at h
        · rename_i hcond
          rw [List.mem_singleton] at h
          exact ⟨p, rfl, Or.inr ⟨h, hcond⟩⟩
        · exact absurd h (by simp)

theorem mem_planRefErrors (registry : EntityRegistry) (p : PlanDoc)
    (err : CrossReferenceError) (h : err ∈ planRefErrors registry p) :
    ∃ envelopeId, p.source_envelope_id = some envelopeId ∧
      registry.hasEnvelope envelopeId = false ∧
      err = planEnvelopeError p.plan_id envelopeId := by
  cases hp : p.source_envelope_id with
  | none =>
      rw [planRefErrors_eq_none registry p hp] at h
      exact absurd h (by simp)
  | some envelopeId =>
      rw [planRefErrors_eq_some registry p envelopeId hp] at h
      split at h
      · rename_i hcond
        rw [List.mem_singleton] at h
        have hc := (Bool.and_eq_true _ _).mp hcond
        exact ⟨envelopeId, rfl, by simpa using hc.2, h⟩
      · exact absurd h (by simp)

theorem mem_receiptRefErrors (registry : EntityRegistry) (rc : ReceiptDoc)
    (err : CrossReferenceError) (h : err ∈ receiptRefErrors registry rc) :
    (∃ planId, rc.plan_id = some planId ∧
        registry.hasPlan planId = false ∧
        err = receiptPlanError rc.receipt_id planId) ∨
      (∃ envelopeId, rc.source_envelope_id = some envelopeId ∧
        registry.hasEnvelope envelopeId = false ∧
        err = receiptEnvelopeError rc.receipt_id envelopeId) := by
  cases hp : rc.plan_id with
  | none =>
      cases he : rc.source_envelope_id with
      | none =>
          rw [receiptRefErrors_eq_nn registry rc hp he] at h
          exact absurd h (by simp)
      | some envelopeId =>
          rw [receiptRefErrors_eq_ns registry rc envelopeId hp he] at h
          split at h
          · rename_i hcond
            rw [List.mem_singleton] at h
            have hc := (Bool.and_eq_true _ _).mp hcond
            exact Or.inr ⟨envelopeId, rfl, by simpa using hc.2, h⟩
          · exact absurd h (by simp)
  | some planId =>
      cases he : rc.source_envelope_id with
      | none =>
          rw [receiptRefErrors_eq_sn registry rc planId hp he] at h
          split at h
          · rename_i hcond
            rw [List.mem_singleton] at h
            have hc := (Bool.and_eq_true _ _).mp hcond
            exact Or.inl ⟨planId, rfl, by simpa using hc.2, h⟩
          · exact absurd h (by simp)
      | some envelopeId =>
          rw [receiptRefErrors_eq_ss registry rc planId envelopeId hp he]
            at h
          rw [List.mem_append] at h
          rcases h with h | h
          · split at h
            · rename_i hcond
              rw [List.mem_singleton] at h
              have hc := (Bool.and_eq_true _ _).mp hcond
              exact Or.inl ⟨planId, rfl, by simpa using hc.2, h⟩
            · exact absurd h (by simp)
          · split at h
            · rename_i hcond
              rw [List.mem_singleton] at h
              have hc := (Bool.and_eq_true _ _).mp hcond
              exact Or.inr ⟨envelopeId, rfl, by simpa using hc.2, h⟩
            · exact absurd h (by simp)

/-- Every `missing_reference` error of the batch validator on the
parent-envelope field targets an envelope id that is not registered
after the registration phase. -/
theorem missing_parent_target_not_registered (r : EntityRegistry)
    (docs : Documents) (err : CrossReferenceError)
    (h : err ∈ ((validateCrossReferences r docs).1).errors)
    (hf : err.field = "provenance.parent_envelope_id")
    (ht : err.type = ErrType.missing_reference) :
    (registerDocuments r docs).hasEnvelope err.target_id = false := by
  rw [batch_errors_eq] at h
  rw [List.mem_append, List.mem_append] at h
  rcases h with (h | h) | h
  · rw [List.mem_flatMap] at h
    obtain ⟨e, _, hmem⟩ := h
    rw [List.mem_append] at hmem
    rcases hmem with hmem | hmem
    · obtain ⟨p, _, hcase⟩ :=
        mem_envelopeRefErrors (registerDocuments r docs) e err hmem
      rcases hcase with ⟨heq, hreg⟩ | ⟨heq, _⟩
      · subst heq; exact hreg
      · subst heq; exact absurd ht (by simp [circularParentError])
    · obtain ⟨findingId, ref, heq⟩ := mem_internalErrors e err hmem
      subst heq
      exact absurd hf (findingField_ne_parentField findingId)
  · rw [List.mem_flatMap] at h
    obtain ⟨p, _, hmem⟩ := h
    obtain ⟨envelopeId, _, _, heq⟩ :=
      mem_planRefErrors (registerDocuments r docs) p err hmem
    subst heq
    exact absurd hf (by simp [planEnvelopeError])
  · rw [List.mem_flatMap] at h
    obtain ⟨rc, _, hmem⟩ := h
    rcases mem_receiptRefErrors (registerDocuments r docs) rc err hmem with
      ⟨planId, _, _, heq⟩ | ⟨envelopeId, _, _, heq⟩
    · subst heq
      exact absurd hf (by simp [receiptPlanError])
    · subst heq
      exact absurd hf (by simp [receiptEnvelopeError])

/-! ### Equation lemmas for the incremental validator -/

theorem docRefs_envelope_errors_eq (r : EntityRegistry) (d : EnvelopeDoc) :
    (validateDocumentRefs r (TypedDocument.envelope d)).errors =
      (validateEnvelopeInternalRefs d).errors := rfl

theorem docRefs_envelope_warnings_eq_some (r : EntityRegistry)
    (d : EnvelopeDoc) (pid : String) (hp : d.parentId = some pid) :
    (validateDocumentRefs r (TypedDocument.envelope d)).warnings =
      (validateEnvelopeInternalRefs d).warnings ++
      (if pid ≠ "" && !(r.hasEnvelope pid) then
        [parentNotInRegistryWarning pid] else []) := by
  unfold validateDocumentRefs
  dsimp only
  rw [hp]

theorem docRefs_envelope_warnings_eq_none (r : EntityRegistry)
    (d : EnvelopeDoc) (hp : d.parentId = none) :
    (validateDocumentRefs r (TypedDocument.envelope d)).warnings =
      (validateEnvelopeInternalRefs d).warnings := by
  unfold validateDocumentRefs
  dsimp only
  rw [hp]
  simp

theorem docRefs_plan_eq_none (r : EntityRegistry) (p : PlanDoc)
    (hp : p.source_envelope_id = none) :
    validateDocumentRefs r (TypedDocument.plan p) =
      { valid := true, errors := [], warnings := [] } := by
  unfold validateDocumentRefs
  dsimp only
  rw [hp]
  rfl

theorem docRefs_receipt_errors_eq_none (r : EntityRegistry)
    (d : ReceiptDoc) (hp : d.plan_id = none) :
    validateDocumentRefs r (TypedDocument.receipt d) =
      { valid := true, errors := [], warnings := [] } := by
  unfold validateDocumentRefs
  dsimp only
  rw [hp]
  rfl

theorem docRefs_receipt_errors_eq_some (r : EntityRegistry)
    (d : ReceiptDoc) (planId : String) (hp : d.plan_id = some planId) :
    (validateDocumentRefs r (TypedDocument.receipt d)).errors =
      if planId ≠ "" && !(r.hasPlan planId) then
        [docReceiptPlanError d.receipt_id planId] else [] := by
  unfold validateDocumentRefs
  dsimp only
  rw [hp]

/-! ### Claims -/

/-- C8: `clear()` empties the registry: afterwards every `has*` query
returns `false` for every identifier, the registry equals the initial
empty state, and clearing an already-empty registry leaves it empty. -/
theorem clear_resets_registry (r : EntityRegistry) (id : String) :
    (r.clear.hasEnvelope id = false ∧ r.clear.hasPlan id = false ∧
      r.clear.hasReceipt id = false ∧ r.clear.hasArtifact id = false) ∧
    r.clear = EntityRegistry.empty ∧
    EntityRegistry.empty.clear = EntityRegistry.empty :=
  ⟨⟨rfl, rfl, rfl, rfl⟩, rfl, rfl⟩

/-- C7: running the batch validator twice on the same document set, each
time from a freshly cleared registry, yields the same result (validity
flag, errors and warnings, in order). -/
theorem validateCrossReferences_idempotent (r : EntityRegistry)
    (docs : Documents) :
    (validateCrossReferences
        ((validateCrossReferences r.clear docs).2.clear) docs).1 =
      (validateCrossReferences r.clear docs).1 := rfl

/-- C2 counterexample: registering envelope `"E"` first with artifact
set `["A1"]` and then with artifact set `["A2"]` leaves
`hasArtifact "A1" = true`, although `"A1"` is not in the second
registration's artifact set — stale artifact entries are not removed. -/
theorem registerEnvelope_overwrite_counterexample :
    ((EntityRegistry.empty.registerEnvelope "E"
        { artifact_ids := ["A1"], parent_envelope_id := none }
      ).registerEnvelope "E"
        { artifact_ids := ["A2"], parent_envelope_id := none }
      ).hasArtifact "A1" = true ∧
    "A1" ∉ (["A2"] : List String) := by
  exact ⟨rfl, by decide⟩

/-- C2 (amended): re-registering an envelope id overwrites the envelope
entry (`getEnvelope` returns the second projection), but the artifact
index accumulates: for an artifact id not previously present,
`hasArtifact` afterwards reports `true` exactly when the id occurs in
the first or the second registration's artifact set. -/
theorem registerEnvelope_overwrite (r : EntityRegistry)
    (envelopeId : String) (env1 env2 : EnvelopeRef) (a : String)
    (h : r.hasArtifact a = false) :
    ((r.registerEnvelope envelopeId env1).registerEnvelope envelopeId env2
      ).getEnvelope envelopeId = some env2 ∧
    ((r.registerEnvelope envelopeId env1).registerEnvelope envelopeId env2
      ).hasArtifact a =
      (env1.artifact_ids.contains a || env2.artifact_ids.contains a) := by
  constructor
  · exact getEnvelope_registerEnvelope_self _ envelopeId env2
  · rw [hasArtifact_registerEnvelope, hasArtifact_registerEnvelope, h]
    simp [Bool.or_comm]

/-- Witness for C2 (amended): a concrete registry where both artifact
sets remain visible after the overwrite. -/
theorem registerEnvelope_overwrite_witness :
    ((EntityRegistry.empty.registerEnvelope "E"
        { artifact_ids := ["A1"], parent_envelope_id := none }
      ).registerEnvelope "E"
        { artifact_ids := ["A2"], parent_envelope_id := none }
      ).getEnvelope "E" =
        some { artifact_ids := ["A2"], parent_envelope_id := none } ∧
    ((EntityRegistry.empty.registerEnvelope "E"
        { artifact_ids := ["A1"], parent_envelope_id := none }
      ).registerEnvelope "E"
        { artifact_ids := ["A2"], parent_envelope_id := none }
      ).hasArtifact "A1" =
      ((["A1"] : List String).contains "A1" ||
        (["A2"] : List String).contains "A1") :=
  registerEnvelope_overwrite EntityRegistry.empty "E"
    { artifact_ids := ["A1"], parent_envelope_id := none }
    { artifact_ids := ["A2"], parent_envelope_id := none } "A1" rfl

/-- C5: for an envelope document whose declared parent is unknown to the
registry, the incremental validator reports the unresolved parent as an
`unverified_reference` warning, its errors are exactly those of the
internal check, and no error concerns the parent field. -/
theorem docRefs_envelope_unresolved_parent (r : EntityRegistry)
    (d : EnvelopeDoc) (pid : String) (hp : d.parentId = some pid)
    (hne : pid ≠ "") (hreg : r.hasEnvelope pid = false) :
    (validateDocumentRefs r (TypedDocument.envelope d)).errors =
      (validateEnvelopeInternalRefs d).errors ∧
    parentNotInRegistryWarning pid ∈
      (validateDocumentRefs r (TypedDocument.envelope d)).warnings ∧
    ∀ err ∈ (validateDocumentRefs r (TypedDocument.envelope d)).errors,
      err.field ≠ "provenance.parent_envelope_id" := by
  refine ⟨rfl, ?_, ?_⟩
  · rw [docRefs_envelope_warnings_eq_some r d pid hp]
    refine List.mem_append_right _ ?_
    have hcond : (pid ≠ "" && !(r.hasEnvelope pid)) = true := by
      rw [hreg]
      simp [hne]
    rw [if_pos hcond]
    exact List.mem_singleton.mpr rfl
  · intro err hmem
    rw [docRefs_envelope_errors_eq] at hmem
    obtain ⟨findingId, ref, heq⟩ := mem_internalErrors d err hmem
    subst heq
    exact findingField_ne_parentField findingId

/-- Witness for C5 at a concrete envelope with unknown parent `"P0"`. -/
theorem docRefs_envelope_unresolved_parent_witness :
    (validateDocumentRefs EntityRegistry.empty (TypedDocument.envelope
        { envelope_id := "E1", artifacts := none, findings := none
          provenance := some { parent_envelope_id := some "P0" } })).errors =
      (validateEnvelopeInternalRefs
        { envelope_id := "E1", artifacts := none, findings := none
          provenance := some { parent_envelope_id := some "P0" } }).errors ∧
    parentNotInRegistryWarning "P0" ∈
      (validateDocumentRefs EntityRegistry.empty (TypedDocument.envelope
        { envelope_id := "E1", artifacts := none, findings := none
          provenance := some { parent_envelope_id := some "P0" } })).warnings ∧
    ∀ err ∈ (validateDocumentRefs EntityRegistry.empty
        (TypedDocument.envelope
          { envelope_id := "E1", artifacts := none, findings := none
            provenance := some { parent_envelope_id := some "P0" } })).errors,
      err.field ≠ "provenance.parent_envelope_id" :=
  docRefs_envelope_unresolved_parent EntityRegistry.empty
    { envelope_id := "E1", artifacts := none, findings := none
      provenance := some { parent_envelope_id := some "P0" } }
    "P0" rfl (by decide) rfl

/-- C6: the incremental validator on a receipt checks only the plan-id
reference: it emits no warnings, its result does not depend on the
receipt's envelope-reference fields, an unknown declared plan id yields
exactly the `missing_reference` plan error, and every emitted error is a
plan error. -/
theorem docRefs_receipt_plan_only (r : EntityRegistry) (d : ReceiptDoc) :
    (validateDocumentRefs r (TypedDocument.receipt d)).warnings = [] ∧
    (∀ x y, validateDocumentRefs r (TypedDocument.receipt
        { d with envelope_id := x, source_envelope_id := y }) =
      validateDocumentRefs r (TypedDocument.receipt d)) ∧
    (∀ p, d.plan_id = some p → p ≠ "" → r.hasPlan p = false →
      (validateDocumentRefs r (TypedDocument.receipt d)).errors =
        [docReceiptPlanError d.receipt_id p]) ∧
    ∀ err ∈ (validateDocumentRefs r (TypedDocument.receipt d)).errors,
      ∃ p, d.plan_id = some p ∧ err = docReceiptPlanError d.receipt_id p := by
  refine ⟨rfl, fun x y => rfl, ?_, ?_⟩
  · intro p hp hne hreg
    rw [docRefs_receipt_errors_eq_some r d p hp]
    have hcond : (p ≠ "" && !(r.hasPlan p)) = true := by
      rw [hreg]
      simp [hne]
    rw [if_pos hcond]
  · intro err hmem
    cases hp : d.plan_id with
    | none =>
        rw [docRefs_receipt_errors_eq_none r d hp] at hmem
        exact absurd hmem (by simp)
    | some p =>
        rw [docRefs_receipt_errors_eq_some r d p hp] at hmem
        split at hmem
        · rw [List.mem_singleton] at hmem
          exact ⟨p, rfl, hmem⟩
        · exact absurd hmem (by simp)

/-- Witness for C6 at a concrete receipt declaring an unknown plan and
an unknown envelope: only the plan error is emitted. -/
theorem docRefs_receipt_plan_only_witness :
    (validateDocumentRefs EntityRegistry.empty (TypedDocument.receipt
        { receipt_id := "R1", plan_id := some "P1"
          envelope_id := some "E404"
          source_envelope_id := some "E404" })).errors =
      [docReceiptPlanError "R1" "P1"] :=
  (docRefs_receipt_plan_only EntityRegistry.empty
      { receipt_id := "R1", plan_id := some "P1"
        envelope_id := some "E404"
        source_envelope_id := some "E404" }).2.2.1
    "P1" rfl (by decide) rfl

/-- C9: in the batch validator, every envelope that declares a (truthy)
parent id contributes the internal validator's `unverified_reference`
warning, regardless of whether the parent is registered. -/
theorem batch_parent_warning_unconditional (r : EntityRegistry)
    (docs : Documents) (e : EnvelopeDoc) (pid : String)
    (he : e ∈ docs.envelopes.getD []) (hp : e.parentId = some pid)
    (hne : pid ≠ "") :
    parentUnverifiedWarning pid ∈
      ((validateCrossReferences r docs).1).warnings := by
  rw [batch_warnings_eq]
  refine List.mem_flatMap.mpr ⟨e, he, ?_⟩
  rw [internal_warnings_eq_some e pid hp, if_pos hne]
  exact List.mem_singleton.mpr rfl

/-- Witness for C9: the parent `"P"` is registered in the same batch,
and the warning is still emitted. -/
theorem batch_parent_warning_unconditional_witness :
    parentUnverifiedWarning "P" ∈
      ((validateCrossReferences EntityRegistry.empty
        { envelopes := some
            [{ envelope_id := "E1", artifacts := none, findings := none
               provenance := some { parent_envelope_id := some "P" } },
             { envelope_id := "P", artifacts := none, findings := none
               provenance := none }]
          plans := none
          receipts := none }).1).warnings :=
  batch_parent_warning_unconditional EntityRegistry.empty
    { envelopes := some
        [{ envelope_id := "E1", artifacts := none, findings := none
           provenance := some { parent_envelope_id := some "P" } },
         { envelope_id := "P", artifacts := none, findings := none
           provenance := none }]
      plans := none
      receipts := none }
    { envelope_id := "E1", artifacts := none, findings := none
      provenance := some { parent_envelope_id := some "P" } }
    "P" (by simp) rfl (by decide)

/-- C10: the incremental validator on an envelope with a declared parent
emits exactly one `unverified_reference` warning when the parent is in
the registry and exactly two when it is not. -/
theorem docRefs_envelope_warning_count (r : EntityRegistry)
    (d : EnvelopeDoc) (pid : String) (hp : d.parentId = some pid)
    (hne : pid ≠ "") :
    (validateDocumentRefs r (TypedDocument.envelope d)).warnings =
      if r.hasEnvelope pid then [parentUnverifiedWarning pid]
      else [parentUnverifiedWarning pid, parentNotInRegistryWarning pid] := by
  rw [docRefs_envelope_warnings_eq_some r d pid hp,
    internal_warnings_eq_some d pid hp, if_pos hne]
  cases hb : r.hasEnvelope pid with
  | true => simp [hb]
  | false => simp [hb, hne]

/-- Witness for C10 at a concrete envelope and the empty registry: the
parent is not registered and exactly two warnings result. -/
theorem docRefs_envelope_warning_count_witness :
    (validateDocumentRefs EntityRegistry.empty (TypedDocument.envelope
        { envelope_id := "E1", artifacts := none, findings := none
          provenance := some { parent_envelope_id := some "P0" } })).warnings =
      if EntityRegistry.empty.hasEnvelope "P0" then
        [parentUnverifiedWarning "P0"]
      else [parentUnverifiedWarning "P0", parentNotInRegistryWarning "P0"] :=
  docRefs_envelope_warning_count EntityRegistry.empty
    { envelope_id := "E1", artifacts := none, findings := none
      provenance := some { parent_envelope_id := some "P0" } }
    "P0" rfl (by decide)

/-- C1: a receipt in the batch whose declared plan id resolves after
registration but whose declared envelope id `"E404"` does not
contributes exactly one error — the `missing_reference` on the envelope
reference (source `"receipt"`, target `"evidence-envelope"`, field
`source_envelope_id`, target id `"E404"`) — and that error appears in
the batch result. -/
theorem batch_receipt_single_envelope_error (r : EntityRegistry)
    (docs : Documents) (rc : ReceiptDoc) (p : String)
    (hmem : rc ∈ docs.receipts.getD [])
    (hplan : rc.plan_id = some p)
    (hknown : (registerDocuments r docs).hasPlan p = true)
    (henv : rc.source_envelope_id = some "E404")
    (hunknown : (registerDocuments r docs).hasEnvelope "E404" = false) :
    receiptRefErrors (registerDocuments r docs) rc =
      [receiptEnvelopeError rc.receipt_id "E404"] ∧
    receiptEnvelopeError rc.receipt_id "E404" ∈
      ((validateCrossReferences r docs).1).errors := by
  have heq : receiptRefErrors (registerDocuments r docs) rc =
      [receiptEnvelopeError rc.receipt_id "E404"] := by
    rw [receiptRefErrors_eq_ss _ rc p "E404" hplan henv]
    have h1 : (p ≠ "" && !(registerDocuments r docs).hasPlan p) = false := by
      rw [hknown]
      simp
    have h2 : (("E404" : String) ≠ "" &&
        !(registerDocuments r docs).hasEnvelope "E404") = true := by
      rw [hunknown]
      simp
    rw [if_neg (by rw [h1]; exact Bool.false_ne_true), if_pos h2]
    rfl
  refine ⟨heq, ?_⟩
  rw [batch_errors_eq]
  refine List.mem_append_right _ ?_
  refine List.mem_flatMap.mpr ⟨rc, hmem, ?_⟩
  rw [heq]
  exact List.mem_singleton.mpr rfl

/-- Witness for C1: plan `"P1"` is registered in the batch, envelope
`"E404"` is not; the receipt's only error targets the envelope. -/
theorem batch_receipt_single_envelope_error_witness :
    receiptRefErrors
        (registerDocuments EntityRegistry.empty
          { envelopes := none
            plans := some [{ plan_id := "P1", source_envelope_id := none
                             receipt_id := none }]
            receipts := some [{ receipt_id := "R1", plan_id := some "P1"
                                envelope_id := none
                                source_envelope_id := some "E404" }] })
        { receipt_id := "R1", plan_id := some "P1", envelope_id := none
          source_envelope_id := some "E404" } =
      [receiptEnvelopeError "R1" "E404"] ∧
    receiptEnvelopeError "R1" "E404" ∈
      ((validateCrossReferences EntityRegistry.empty
        { envelopes := none
          plans := some [{ plan_id := "P1", source_envelope_id := none
                           receipt_id := none }]
          receipts := some [{ receipt_id := "R1", plan_id := some "P1"
                              envelope_id := none
                              source_envelope_id := some "E404" }] }).1).errors :=
  batch_receipt_single_envelope_error EntityRegistry.empty
    { envelopes := none
      plans := some [{ plan_id := "P1", source_envelope_id := none
                       receipt_id := none }]
      receipts := some [{ receipt_id := "R1", plan_id := some "P1"
                          envelope_id := none
                          source_envelope_id := some "E404" }] }
    { receipt_id := "R1", plan_id := some "P1", envelope_id := none
      source_envelope_id := some "E404" }
    "P1" (by simp) rfl rfl rfl rfl

/-- C3: an envelope in the batch whose declared parent id equals its own
id yields the `circular_reference` error with source and target equal to
its id, and the batch result contains no `missing_reference` error on
the parent field targeting that id (the envelope resolves to itself). -/
theorem batch_self_parent_circular (r : EntityRegistry)
    (docs : Documents) (e : EnvelopeDoc)
    (he : e ∈ docs.envelopes.getD [])
    (hp : e.parentId = some e.envelope_id) :
    circularParentError e.envelope_id e.envelope_id ∈
      ((validateCrossReferences r docs).1).errors ∧
    ∀ err ∈ ((validateCrossReferences r docs).1).errors,
      err.field = "provenance.parent_envelope_id" →
      err.target_id = e.envelope_id →
      err.type ≠ ErrType.missing_reference := by
  constructor
  · rw [batch_errors_eq]
    refine List.mem_append_left _ (List.mem_append_left _ ?_)
    refine List.mem_flatMap.mpr ⟨e, he, List.mem_append_left _ ?_⟩
    rw [envelopeRefErrors_eq_some _ e e.envelope_id hp]
    refine List.mem_append_right _ ?_
    rw [if_pos rfl]
    exact List.mem_singleton.mpr rfl
  · intro err hmem hf htarget htype
    have hnot := missing_parent_target_not_registered r docs err hmem hf
      htype
    rw [htarget, hasEnvelope_registerDocuments_of_mem r docs e he] at hnot
    exact absurd hnot (by simp)

/-- Witness for C3: a batch with the single self-parenting envelope
`"E1"`. -/
theorem batch_self_parent_circular_witness :
    circularParentError "E1" "E1" ∈
      ((validateCrossReferences EntityRegistry.empty
        { envelopes := some
            [{ envelope_id := "E1", artifacts := none, findings := none
               provenance := some { parent_envelope_id := some "E1" } }]
          plans := none
          receipts := none }).1).errors :=
  (batch_self_parent_circular EntityRegistry.empty
    { envelopes := some
        [{ envelope_id := "E1", artifacts := none, findings := none
           provenance := some { parent_envelope_id := some "E1" } }]
      plans := none
      receipts := none }
    { envelope_id := "E1", artifacts := none, findings := none
      provenance := some { parent_envelope_id := some "E1" } }
    (by simp) rfl).1

/-- An envelope document that declares no optional references: no
parent-envelope id and no evidence references on any finding. -/
def EnvelopeDoc.noRefs (e : EnvelopeDoc) : Prop :=
  e.parentId = none ∧
  ∀ f ∈ e.findings.getD [], f.evidence_refs.getD [] = []

theorem internal_noRefs (e : EnvelopeDoc) (he : e.noRefs) :
    validateEnvelopeInternalRefs e =
      { valid := true, errors := [], warnings := [] } := by
  have herr : (validateEnvelopeInternalRefs e).errors = [] := by
    rw [internal_errors_eq]
    refine List.flatMap_eq_nil_iff.mpr ?_
    intro f hf
    rw [he.2 f hf]
    rfl
  have hw : (validateEnvelopeInternalRefs e).warnings = [] :=
    internal_warnings_eq_none e he.1
  have hv : (validateEnvelopeInternalRefs e).valid = true := by
    have hdef : (validateEnvelopeInternalRefs e).valid =
        (validateEnvelopeInternalRefs e).errors.isEmpty := rfl
    rw [hdef, herr]
    rfl
  calc validateEnvelopeInternalRefs e
      = { valid := (validateEnvelopeInternalRefs e).valid
          errors := (validateEnvelopeInternalRefs e).errors
          warnings := (validateEnvelopeInternalRefs e).warnings } := rfl
    _ = { valid := true, errors := [], warnings := [] } := by
        rw [herr, hw, hv]

theorem batch_noRefs (r : EntityRegistry) (docs : Documents)
    (h1 : ∀ x ∈ docs.envelopes.getD [], x.noRefs)
    (h2 : ∀ x ∈ docs.plans.getD [], x.source_envelope_id = none)
    (h3 : ∀ x ∈ docs.receipts.getD [],
      x.plan_id = none ∧ x.source_envelope_id = none) :
    (validateCrossReferences r docs).1 =
      { valid := true, errors := [], warnings := [] } := by
  have herr : ((validateCrossReferences r docs).1).errors = [] := by
    rw [batch_errors_eq]
    have hA : (docs.envelopes.getD []).flatMap (fun envelope =>
        envelopeRefErrors (registerDocuments r docs) envelope ++
        (validateEnvelopeInternalRefs envelope).errors) = [] := by
      refine List.flatMap_eq_nil_iff.mpr ?_
      intro x hx
      rw [envelopeRefErrors_eq_none _ x (h1 x hx).1,
        internal_noRefs x (h1 x hx)]
      rfl
    have hB : (docs.plans.getD []).flatMap
        (planRefErrors (registerDocuments r docs)) = [] := by
      refine List.flatMap_eq_nil_iff.mpr ?_
      intro x hx
      exact planRefErrors_eq_none _ x (h2 x hx)
    have hC : (docs.receipts.getD []).flatMap
        (receiptRefErrors (registerDocuments r docs)) = [] := by
      refine List.flatMap_eq_nil_iff.mpr ?_
      intro x hx
      exact receiptRefErrors_eq_nn _ x (h3 x hx).1 (h3 x hx).2
    rw [hA, hB, hC]
    rfl
  have hw : ((validateCrossReferences r docs).1).warnings = [] := by
    rw [batch_warnings_eq]
    refine List.flatMap_eq_nil_iff.mpr ?_
    intro x hx
    rw [internal_noRefs x (h1 x hx)]
  have hv : ((validateCrossReferences r docs).1).valid = true := by
    have hdef : ((validateCrossReferences r docs).1).valid =
        ((validateCrossReferences r docs).1).errors.isEmpty := rfl
    rw [hdef, herr]
    rfl
  calc (validateCrossReferences r docs).1
      = { valid := ((validateCrossReferences r docs).1).valid
          errors := ((validateCrossReferences r docs).1).errors
          warnings := ((validateCrossReferences r docs).1).warnings } := rfl
    _ = { valid := true, errors := [], warnings := [] } := by
        rw [herr, hw, hv]

theorem docRefs_envelope_noRefs (r : EntityRegistry) (d : EnvelopeDoc)
    (hd : d.noRefs) :
    validateDocumentRefs r (TypedDocument.envelope d) =
      { valid := true, errors := [], warnings := [] } := by
  have herr : (validateDocumentRefs r (TypedDocument.envelope d)).errors
      = [] := by
    rw [docRefs_envelope_errors_eq, internal_noRefs d hd]
  have hw : (validateDocumentRefs r (TypedDocument.envelope d)).warnings
      = [] := by
    rw [docRefs_envelope_warnings_eq_none r d hd.1, internal_noRefs d hd]
  have hv : (validateDocumentRefs r (TypedDocument.envelope d)).valid
      = true := by
    have hdef : (validateDocumentRefs r (TypedDocument.envelope d)).valid =
        (validateDocumentRefs r (TypedDocument.envelope d)).errors.isEmpty :=
      rfl
    rw [hdef, herr]
    rfl
  calc validateDocumentRefs r (TypedDocument.envelope d)
      = { valid := (validateDocumentRefs r (TypedDocument.envelope d)).valid
          errors :=
            (validateDocumentRefs r (TypedDocument.envelope d)).errors
          warnings :=
            (validateDocumentRefs r (TypedDocument.envelope d)).warnings } :=
        rfl
    _ = { valid := true, errors := [], warnings := [] } := by
        rw [herr, hw, hv]

/-- C4: when every optional reference field is absent, every validation
entry point returns the valid result with no errors and no warnings —
an absent reference field is never treated as a defect. -/
theorem validators_ignore_absent_refs (r : EntityRegistry)
    (docs : Documents) (e : EnvelopeDoc) (p : PlanDoc) (rc : ReceiptDoc)
    (h1 : ∀ x ∈ docs.envelopes.getD [], x.noRefs)
    (h2 : ∀ x ∈ docs.plans.getD [], x.source_envelope_id = none)
    (h3 : ∀ x ∈ docs.receipts.getD [],
      x.plan_id = none ∧ x.source_envelope_id = none)
    (he : e.noRefs) (hp : p.source_envelope_id = none)
    (hrc : rc.plan_id = none) :
    validateEnvelopeInternalRefs e =
      { valid := true, errors := [], warnings := [] } ∧
    (validateCrossReferences r docs).1 =
      { valid := true, errors := [], warnings := [] } ∧
    validateDocumentRefs r (TypedDocument.envelope e) =
      { valid := true, errors := [], warnings := [] } ∧
    validateDocumentRefs r (TypedDocument.plan p) =
      { valid := true, errors := [], warnings := [] } ∧
    validateDocumentRefs r (TypedDocument.receipt rc) =
      { valid := true, errors := [], warnings := [] } :=
  ⟨internal_noRefs e he, batch_noRefs r docs h1 h2 h3,
    docRefs_envelope_noRefs r e he, docRefs_plan_eq_none r p hp,
    docRefs_receipt_errors_eq_none r rc hrc⟩

/-- Witness for C4 at concrete documents with every optional reference
field absent. -/
theorem validators_ignore_absent_refs_witness :
    validateEnvelopeInternalRefs
      { envelope_id := "E1", artifacts := none, findings := none
        provenance := none } =
      { valid := true, errors := [], warnings := [] } ∧
    (validateCrossReferences EntityRegistry.empty
      { envelopes := some [{ envelope_id := "E1", artifacts := none
                             findings := none, provenance := none }]
        plans := some [{ plan_id := "P1", source_envelope_id := none
                         receipt_id := none }]
        receipts := some [{ receipt_id := "R1", plan_id := none
                            envelope_id := none
                            source_envelope_id := none }] }).1 =
      { valid := true, errors := [], warnings := [] } ∧
    validateDocumentRefs EntityRegistry.empty (TypedDocument.envelope
      { envelope_id := "E1", artifacts := none, findings := none
        provenance := none }) =
      { valid := true, errors := [], warnings := [] } ∧
    validateDocumentRefs EntityRegistry.empty (TypedDocument.plan
      { plan_id := "P1", source_envelope_id := none
        receipt_id := none }) =
      { valid := true, errors := [], warnings := [] } ∧
    validateDocumentRefs EntityRegistry.empty (TypedDocument.receipt
      { receipt_id := "R1", plan_id := none, envelope_id := none
        source_envelope_id := none }) =
      { valid := true, errors := [], warnings := [] } :=
  validators_ignore_absent_refs EntityRegistry.empty
    { envelopes := some [{ envelope_id := "E1", artifacts := none
                           findings := none, provenance := none }]
      plans := some [{ plan_id := "P1", source_envelope_id := none
                       receipt_id := none }]
      receipts := some [{ receipt_id := "R1", plan_id := none
                          envelope_id := none
                          source_envelope_id := none }] }
    { envelope_id := "E1", artifacts := none, findings := none
      provenance := none }
    { plan_id := "P1", source_envelope_id := none, receipt_id := none }
    { receipt_id := "R1", plan_id := none, envelope_id := none
      source_envelope_id := none }
    (by
      intro x hx
      simp only [Option.getD_some, List.mem_singleton] at hx
      subst hx
      exact ⟨rfl, by simp⟩)
    (by
      intro x hx
      simp only [Option.getD_some, List.mem_singleton] at hx
      subst hx
      rfl)
    (by
      intro x hx
      simp only [Option.getD_some, List.mem_singleton] at hx
      subst hx
      exact ⟨rfl, rfl⟩)
    ⟨rfl, by simp⟩ rfl rfl

end SystemToolsContracts
